import Mathlib

/-!
Verification of `pkg/workloads/deploymentConfig.go` from the argocd-operator
repository: a shallow embedding of the deploymentConfig request builder and
its thin CRUD accessors, followed by theorems about their behaviour.

Go maps are embedded as association lists queried through `lookupKV`;
Go `(value, error)` pairs are embedded as `Except`/`Option`; the underlying
controller-runtime client is embedded as a record of response functions, and
every embedded accessor additionally returns the ordered list of client calls
it performed, so that "never invokes the underlying call" is a statement
about the returned trace.
-/

/-- Lookup in an association-list map (first binding wins), embedding Go map
indexing. -/
def lookupKV (k : String) : List (String × String) → Option String
  | [] => none
  | (k₁, v) :: rest => if k₁ = k then some v else lookupKV k rest

/-- Modelled from the spec: `argoutil.MergeMaps` is not under src/.  The spec
says labels/annotations "are merged with a fixed default set, caller-supplied
values taking precedence on key collision"; `MergeMaps a b` keeps every
binding of `b` and those bindings of `a` whose key is absent from `b`. -/
def MergeMaps (a b : List (String × String)) : List (String × String) :=
  (a.filter fun p => (lookupKV p.1 b).isNone) ++ b

/-- Modelled from the spec: `argoutil.GenerateResourceName` is not under
src/.  The spec says the default name is "a deterministic function of
(instance name, component)", the "deterministic combination" of the two. -/
def GenerateResourceName (instanceName component : String) : String :=
  instanceName ++ "-" ++ component

/-- Modelled from the spec: `common.DefaultLabels` is not under src/.  The
spec says labels are merged with "a fixed default set" and its scenario shows
the defaults containing the key "app" with value "argocd". -/
def DefaultLabels (name instanceName component : String) :
    List (String × String) :=
  [("app", "argocd"),
   ("app.kubernetes.io/name", name),
   ("app.kubernetes.io/instance", instanceName),
   ("app.kubernetes.io/component", component)]

/-- Modelled from the spec: `common.DefaultAnnotations` is not under src/.
The spec says annotations are merged with a fixed default set determined by
the owning instance. -/
def DefaultAnnotations (instanceName instanceNamespace : String) :
    List (String × String) :=
  [("argocds.argoproj.io/name", instanceName),
   ("argocds.argoproj.io/namespace", instanceNamespace)]

/-- Embedding of `metav1.ObjectMeta`, restricted to the fields this file
sets and reads. -/
structure ObjectMeta where
  name : String
  «namespace» : String
  labels : List (String × String)
  annotations : List (String × String)
deriving DecidableEq, Repr

/-- Embedding of `oappsv1.DeploymentConfig`, restricted to the fields this
file sets and reads. -/
structure DeploymentConfig where
  objectMeta : ObjectMeta
deriving DecidableEq, Repr

/-- Embedding of `oappsv1.DeploymentConfigList`. -/
structure DeploymentConfigList where
  items : List DeploymentConfig
deriving DecidableEq, Repr

/-- The opaque empty-interface client handle stored in a request and
passed through to mutation callbacks; this file never inspects it. -/
structure ClientHandle where
  id : Nat
deriving DecidableEq, Repr

/-- Modelled from the spec: `mutation.MutateFunc` is not under src/.  The
spec says a mutation callback takes "(previous-object-or-absent,
resource-object-being-built, client)" and returns success or failure, and
"may mutate the resource object in place"; in-place mutation is embedded by
returning the updated object alongside the optional error message. -/
def MutateFunc :=
  Option DeploymentConfig → DeploymentConfig → ClientHandle →
    DeploymentConfig × Option String

/-- Embedding of `DeploymentConfigRequest`. -/
structure DeploymentConfigRequest where
  Name : String
  InstanceName : String
  InstanceNamespace : String
  Component : String
  Labels : List (String × String)
  Annotations : List (String × String)
  Mutations : List MutateFunc
  Client : ClientHandle

/-- Embedding of `newDeploymentConfig`. -/
def newDeploymentConfig (name instanceName instanceNamespace component :
    String) (labels annotations : List (String × String)) :
    DeploymentConfig :=
  let deploymentConfigName := if name ≠ "" then name
    else GenerateResourceName instanceName component
  { objectMeta :=
    { name := deploymentConfigName
      «namespace» := instanceNamespace
      labels := MergeMaps
        (DefaultLabels deploymentConfigName instanceName component) labels
      annotations := MergeMaps
        (DefaultAnnotations instanceName instanceNamespace) annotations } }

/-- The loop body of `RequestDeploymentConfig`: runs the mutation callbacks
in order, threading the (in-place mutated) object and the `mutationErr`
variable, which each failing callback overwrites.  Also returns a trace of
the invocations: for each callback, the first argument it was passed and the
error it returned. -/
def runMutations (client : ClientHandle) (mutationErr : Option String)
    (deploymentConfig : DeploymentConfig) :
    List MutateFunc →
      DeploymentConfig × Option String ×
        List (Option DeploymentConfig × Option String)
  | [] => (deploymentConfig, mutationErr, [])
  | m :: rest =>
    let step := m none deploymentConfig client
    let newErr := match step.2 with
      | some e => some e
      | none => mutationErr
    let r := runMutations client newErr step.1 rest
    (r.1, r.2.1, (none, step.2) :: r.2.2)

/-- Embedding of `RequestDeploymentConfig`: builds the default object, runs
the mutation callbacks, and on any retained mutation error returns the
(partially mutated) object together with the wrapping error message produced
by `fmt.Errorf`. -/
def RequestDeploymentConfig (request : DeploymentConfigRequest) :
    DeploymentConfig × Option String :=
  let deploymentConfig := newDeploymentConfig request.Name
    request.InstanceName request.InstanceNamespace request.Component
    request.Labels request.Annotations
  if request.Mutations.length > 0 then
    let r := runMutations request.Client none deploymentConfig
      request.Mutations
    match r.2.1 with
    | some e => (r.1, some ("RequestDeploymentConfig: one or more mutation functions could not be applied: " ++ e))
    | none => (r.1, none)
  else
    (deploymentConfig, none)

/-- Embedding of the error values distinguished by this file: `errors`
classifies a client error as NotFound or not; everything else is carried
opaquely. -/
inductive KError where
  | notFound
  | alreadyExists
  | transport (msg : String)
deriving DecidableEq, Repr

/-- Embedding of `errors.IsNotFound`. -/
def KError.isNotFound : KError → Bool
  | .notFound => true
  | _ => false

/-- Opaque client list options, forwarded verbatim. -/
structure ListOption where
  tag : String
deriving DecidableEq, Repr

/-- One invocation of the underlying controller-runtime client, recording
exactly the data this file passes to it. -/
inductive ClientCall where
  | get (name «namespace» : String)
  | create (dc : DeploymentConfig)
  | update (dc : DeploymentConfig)
  | delete (dc : DeploymentConfig)
  | list (opts : List ListOption)
deriving DecidableEq, Repr

/-- The underlying `ctrlClient.Client`, embedded as a record of response
functions: `getFn` returns either the fetched object or an error (Go returns
the pair `(nil, err)` or `(obj, nil)`); the write calls return an optional
error; `listFn` returns the populated list or an error. -/
structure KClient where
  getFn : String → String → Except KError DeploymentConfig
  createFn : DeploymentConfig → Option KError
  updateFn : DeploymentConfig → Option KError
  deleteFn : DeploymentConfig → Option KError
  listFn : List ListOption → Except KError DeploymentConfigList

/-- Embedding of `GetDeploymentConfig`: a single client Get, propagating the
object on success and the error verbatim on failure. -/
def GetDeploymentConfig (name «namespace» : String) (client : KClient) :
    Except KError DeploymentConfig × List ClientCall :=
  (client.getFn name «namespace», [ClientCall.get name «namespace»])

/-- Embedding of `CreateDeploymentConfig`: a single forwarding client
Create. -/
def CreateDeploymentConfig (deploymentConfig : DeploymentConfig)
    (client : KClient) : Option KError × List ClientCall :=
  (client.createFn deploymentConfig, [ClientCall.create deploymentConfig])

/-- Embedding of `UpdateDeploymentConfig`: a preliminary Get, whose error is
returned as-is; on success, the client Update is invoked and its error (if
any) is returned. -/
def UpdateDeploymentConfig (deploymentConfig : DeploymentConfig)
    (client : KClient) : Option KError × List ClientCall :=
  let g := GetDeploymentConfig deploymentConfig.objectMeta.name
    deploymentConfig.objectMeta.«namespace» client
  match g.1 with
  | .error e => (some e, g.2)
  | .ok _ =>
    match client.updateFn deploymentConfig with
    | some e => (some e, g.2 ++ [ClientCall.update deploymentConfig])
    | none => (none, g.2 ++ [ClientCall.update deploymentConfig])

/-- Embedding of `DeleteDeploymentConfig`: a preliminary Get; a NotFound
error makes deletion a successful no-op, any other Get error is returned;
otherwise the fetched object is passed to the client Delete, whose error (if
any) is returned. -/
def DeleteDeploymentConfig (name «namespace» : String) (client : KClient) :
    Option KError × List ClientCall :=
  let g := GetDeploymentConfig name «namespace» client
  match g.1 with
  | .error e => if ¬ e.isNotFound then (some e, g.2) else (none, g.2)
  | .ok existingDeploymentConfig =>
    match client.deleteFn existingDeploymentConfig with
    | some e =>
      (some e, g.2 ++ [ClientCall.delete existingDeploymentConfig])
    | none => (none, g.2 ++ [ClientCall.delete existingDeploymentConfig])

/-- Embedding of `ListDeploymentConfigs`: a single client List forwarding
the options verbatim (the `namespace` parameter is unused by the source
body); the populated list is returned on success, the error on failure. -/
def ListDeploymentConfigs («namespace» : String) (client : KClient)
    (listOptions : List ListOption) :
    Except KError DeploymentConfigList × List ClientCall :=
  (client.listFn listOptions, [ClientCall.list listOptions])

/-- Modelled from the spec: the client contract (section 4.1, "fails with
NotFound when absent") for a cluster state given as a finite map from
(name, namespace) to objects; writes succeed and listing returns the whole
state.  Used to state when a resource "is absent on the cluster". -/
def clientOfCluster
    (cluster : List ((String × String) × DeploymentConfig)) : KClient where
  getFn := fun name ns =>
    match cluster.lookup (name, ns) with
    | some dc => .ok dc
    | none => .error .notFound
  createFn := fun _ => none
  updateFn := fun _ => none
  deleteFn := fun _ => none
  listFn := fun _ => .ok { items := cluster.map (·.2) }

/-- The mutation run performed by `RequestDeploymentConfig`: the callbacks of
the request applied in order to the freshly built default object, with an
initially clear `mutationErr`. -/
def buildRun (request : DeploymentConfigRequest) :
    DeploymentConfig × Option String ×
      List (Option DeploymentConfig × Option String) :=
  runMutations request.Client none
    (newDeploymentConfig request.Name request.InstanceName
      request.InstanceNamespace request.Component request.Labels
      request.Annotations)
    request.Mutations

/-- The last `some` element of a list of optional error messages, falling
back to `init`: the value held by a variable that each `some` overwrites. -/
def lastSome (init : Option String) : List (Option String) → Option String
  | [] => init
  | e :: rest =>
    lastSome (match e with | some x => some x | none => init) rest

/-- Whether a client call is an Update. -/
def ClientCall.isUpdate : ClientCall → Bool
  | .update _ => true
  | _ => false

lemma lookupKV_append (k : String) (l₁ l₂ : List (String × String)) :
    lookupKV k (l₁ ++ l₂) =
      match lookupKV k l₁ with
      | some v => some v
      | none => lookupKV k l₂ := by
  induction l₁ with
  | nil => simp [lookupKV]
  | cons p t ih =>
    obtain ⟨k₁, v⟩ := p
    by_cases hk : k₁ = k
    · simp [lookupKV, hk]
    · simp [lookupKV, hk, ih]

lemma lookupKV_filter_of_none (k : String) (b : List (String × String))
    (hb : lookupKV k b = none) (a : List (String × String)) :
    lookupKV k (a.filter fun p => (lookupKV p.1 b).isNone) =
      lookupKV k a := by
  induction a with
  | nil => simp
  | cons p t ih =>
    obtain ⟨k₁, v⟩ := p
    by_cases hk : k₁ = k
    · subst hk
      simp [List.filter, lookupKV, hb, ih]
    · by_cases hp : (lookupKV k₁ b).isNone
      · simp [List.filter, hp, lookupKV, hk, ih]
      · simp [List.filter, hp, lookupKV, hk, ih]

lemma lookupKV_filter_of_some (k : String) (b : List (String × String))
    (w : String) (hb : lookupKV k b = some w) (a : List (String × String)) :
    lookupKV k (a.filter fun p => (lookupKV p.1 b).isNone) = none := by
  induction a with
  | nil => simp [lookupKV]
  | cons p t ih =>
    obtain ⟨k₁, v⟩ := p
    by_cases hk : k₁ = k
    · subst hk
      simp [List.filter, hb, ih]
    · by_cases hp : (lookupKV k₁ b).isNone
      · simp [List.filter, hp, lookupKV, hk, ih]
      · simp [List.filter, hp, ih]

lemma lookupKV_MergeMaps (k : String) (a b : List (String × String)) :
    lookupKV k (MergeMaps a b) =
      match lookupKV k b with
      | some v => some v
      | none => lookupKV k a := by
  unfold MergeMaps
  rw [lookupKV_append]
  cases hb : lookupKV k b with
  | some w => simp [lookupKV_filter_of_some k b w hb a, hb]
  | none =>
    rw [lookupKV_filter_of_none k b hb a]
    cases ha : lookupKV k a <;> simp [hb]

lemma runMutations_length (client : ClientHandle) (ms : List MutateFunc) :
    ∀ (init : Option String) (dc : DeploymentConfig),
      (runMutations client init dc ms).2.2.length = ms.length := by
  induction ms with
  | nil => intro init dc; simp [runMutations]
  | cons m rest ih => intro init dc; simp [runMutations, ih]

lemma runMutations_firsts (client : ClientHandle) (ms : List MutateFunc) :
    ∀ (init : Option String) (dc : DeploymentConfig),
      (runMutations client init dc ms).2.2.map Prod.fst =
        List.replicate ms.length none := by
  induction ms with
  | nil => intro init dc; simp [runMutations]
  | cons m rest ih =>
    intro init dc
    simp [runMutations, ih, List.replicate_succ]

lemma runMutations_err (client : ClientHandle) (ms : List MutateFunc) :
    ∀ (init : Option String) (dc : DeploymentConfig),
      (runMutations client init dc ms).2.1 =
        lastSome init ((runMutations client init dc ms).2.2.map Prod.snd) := by
  induction ms with
  | nil => intro init dc; simp [runMutations, lastSome]
  | cons m rest ih =>
    intro init dc
    simp only [runMutations, List.map_cons, lastSome]
    exact ih _ _

lemma lastSome_of_not_any (l : List (Option String)) :
    ∀ (init : Option String), l.any Option.isSome = false →
      lastSome init l = init := by
  induction l with
  | nil => intro init _; rfl
  | cons e rest ih =>
    intro init h
    simp only [List.any_cons, Bool.or_eq_false_iff] at h
    cases e with
    | some x => simp at h
    | none => simpa [lastSome] using ih init h.2

lemma lastSome_isSome (l : List (Option String)) :
    ∀ (init : Option String), l.any Option.isSome = true →
      (lastSome init l).isSome = true := by
  induction l with
  | nil => intro init h; simp at h
  | cons e rest ih =>
    intro init h
    cases hr : rest.any Option.isSome with
    | true => exact ih _ hr
    | false =>
      simp only [List.any_cons, hr, Bool.or_false] at h
      cases e with
      | some x =>
        simp only [lastSome]
        rw [lastSome_of_not_any rest _ hr]
        rfl
      | none => simp at h

/-- A concrete deploymentConfig used as a sample input. -/
def sampleDC : DeploymentConfig :=
  { objectMeta :=
    { name := "n", «namespace» := "ns", labels := [], annotations := [] } }

/-- A concrete client whose Get always reports NotFound. -/
def notFoundClient : KClient where
  getFn := fun _ _ => .error .notFound
  createFn := fun _ => some .alreadyExists
  updateFn := fun _ => some (.transport "unexpected update")
  deleteFn := fun _ => some (.transport "unexpected delete")
  listFn := fun _ => .error .notFound

/-- A concrete client whose Get always fails with a transport error. -/
def transportClient : KClient where
  getFn := fun _ _ => .error (.transport "boom")
  createFn := fun _ => some (.transport "boom")
  updateFn := fun _ => some (.transport "boom")
  deleteFn := fun _ => some (.transport "boom")
  listFn := fun _ => .error (.transport "boom")

/-- A concrete client whose Get always returns the given object. -/
def okClient (dc : DeploymentConfig) : KClient where
  getFn := fun _ _ => .ok dc
  createFn := fun _ => none
  updateFn := fun _ => none
  deleteFn := fun _ => none
  listFn := fun _ => .ok { items := [dc] }

/-- A mutation callback that fails with the given message, leaving the
object unchanged. -/
def failMut (msg : String) : MutateFunc := fun _ dc _ => (dc, some msg)

/-- A mutation callback that succeeds without changing the object. -/
def okMut : MutateFunc := fun _ dc _ => (dc, none)

/-- A concrete request with one succeeding callback between two failing
ones. -/
def failingRequest : DeploymentConfigRequest :=
  { Name := "n", InstanceName := "argocd", InstanceNamespace := "ns",
    Component := "server", Labels := [], Annotations := [],
    Mutations := [failMut "first failure", okMut, failMut "second failure"],
    Client := { id := 0 } }

/-- A concrete request with an empty mutation list. -/
def emptyRequest : DeploymentConfigRequest :=
  { Name := "n", InstanceName := "argocd", InstanceNamespace := "ns",
    Component := "server", Labels := [], Annotations := [],
    Mutations := [], Client := { id := 0 } }

/-- C1: for every request whose mutation run contains at least one failing
callback, `RequestDeploymentConfig` runs every callback (the invocation
trace covers the whole mutation list, in order), returns the (partially
mutated) object together with a non-nil error, and that error wraps the
message retained by the last-write-wins `mutationErr` variable: the message
of the last failing callback only. -/
theorem requestDeploymentConfig_last_failure_wins
    (request : DeploymentConfigRequest)
    (h : ((buildRun request).2.2.map Prod.snd).any Option.isSome = true) :
    (buildRun request).2.2.length = request.Mutations.length ∧
    ∃ e, lastSome none ((buildRun request).2.2.map Prod.snd) = some e ∧
      RequestDeploymentConfig request =
        ((buildRun request).1,
         some ("RequestDeploymentConfig: one or more mutation functions could not be applied: " ++ e)) := by
  refine ⟨runMutations_length _ _ _ _, ?_⟩
  have hs := lastSome_isSome _ none h
  obtain ⟨e, he⟩ := Option.isSome_iff_exists.mp hs
  refine ⟨e, he, ?_⟩
  have herr : (buildRun request).2.1 = some e := by
    rw [buildRun, runMutations_err]
    exact he
  have hpos : request.Mutations.length > 0 := by
    cases hm : request.Mutations with
    | nil =>
      exfalso
      rw [buildRun, hm] at h
      simp [runMutations] at h
    | cons m rest => simp [hm]
  have herr2 : (runMutations request.Client none
      (newDeploymentConfig request.Name request.InstanceName
        request.InstanceNamespace request.Component request.Labels
        request.Annotations) request.Mutations).2.1 = some e := herr
  simp only [RequestDeploymentConfig]
  rw [if_pos hpos, herr2]
  rfl

/-- C1 witness at a concrete request with two failing callbacks among
three. -/
theorem requestDeploymentConfig_last_failure_wins_witness :
    (buildRun failingRequest).2.2.length =
      failingRequest.Mutations.length ∧
    ∃ e,
      lastSome none ((buildRun failingRequest).2.2.map Prod.snd) = some e ∧
      RequestDeploymentConfig failingRequest =
        ((buildRun failingRequest).1,
         some ("RequestDeploymentConfig: one or more mutation functions could not be applied: " ++ e)) :=
  requestDeploymentConfig_last_failure_wins failingRequest rfl

/-- C2: when the preliminary Get reports NotFound, `UpdateDeploymentConfig`
returns that NotFound error and its client-call trace contains only the Get:
the underlying client Update is never invoked. -/
theorem updateDeploymentConfig_notFound_no_update
    (deploymentConfig : DeploymentConfig) (client : KClient) (e : KError)
    (hget : client.getFn deploymentConfig.objectMeta.name
      deploymentConfig.objectMeta.«namespace» = Except.error e)
    (hnf : e.isNotFound = true) :
    UpdateDeploymentConfig deploymentConfig client =
      (some e, [ClientCall.get deploymentConfig.objectMeta.name
        deploymentConfig.objectMeta.«namespace»]) ∧
    ((UpdateDeploymentConfig deploymentConfig client).2.all
      fun c => ! c.isUpdate) = true := by
  have h₁ : UpdateDeploymentConfig deploymentConfig client =
      (some e, [ClientCall.get deploymentConfig.objectMeta.name
        deploymentConfig.objectMeta.«namespace»]) := by
    simp [UpdateDeploymentConfig, GetDeploymentConfig, hget]
  refine ⟨h₁, ?_⟩
  rw [h₁]
  rfl

/-- C2 witness: updating an object against a client that reports NotFound. -/
theorem updateDeploymentConfig_notFound_no_update_witness :
    UpdateDeploymentConfig sampleDC notFoundClient =
      (some KError.notFound, [ClientCall.get "n" "ns"]) ∧
    ((UpdateDeploymentConfig sampleDC notFoundClient).2.all
      fun c => ! c.isUpdate) = true :=
  updateDeploymentConfig_notFound_no_update sampleDC notFoundClient
    KError.notFound rfl rfl

/-- C3: `DeleteDeploymentConfig` treats a NotFound from the preliminary Get
as a successful no-op (nil error, no Delete call in the trace), returns any
other Get error, and otherwise invokes the client Delete on the fetched
object, returning its error (if any). -/
theorem deleteDeploymentConfig_spec (name ns : String) (client : KClient) :
    (∀ e, client.getFn name ns = Except.error e → e.isNotFound = true →
      DeleteDeploymentConfig name ns client =
        (none, [ClientCall.get name ns])) ∧
    (∀ e, client.getFn name ns = Except.error e → e.isNotFound = false →
      DeleteDeploymentConfig name ns client =
        (some e, [ClientCall.get name ns])) ∧
    (∀ dc, client.getFn name ns = Except.ok dc →
      DeleteDeploymentConfig name ns client =
        (client.deleteFn dc,
         [ClientCall.get name ns, ClientCall.delete dc])) := by
  refine ⟨?_, ?_, ?_⟩
  · intro e he hnf
    simp [DeleteDeploymentConfig, GetDeploymentConfig, he, hnf]
  · intro e he hnf
    simp [DeleteDeploymentConfig, GetDeploymentConfig, he, hnf]
  · intro dc hdc
    cases hd : client.deleteFn dc <;>
      simp [DeleteDeploymentConfig, GetDeploymentConfig, hdc, hd]

/-- C3 witness: deleting against a NotFound client succeeds with no Delete
call; a transport Get error and a Delete error are surfaced. -/
theorem deleteDeploymentConfig_spec_witness :
    DeleteDeploymentConfig "a" "ns" notFoundClient =
      (none, [ClientCall.get "a" "ns"]) ∧
    DeleteDeploymentConfig "a" "ns" transportClient =
      (some (KError.transport "boom"), [ClientCall.get "a" "ns"]) ∧
    DeleteDeploymentConfig "a" "ns" (okClient sampleDC) =
      ((okClient sampleDC).deleteFn sampleDC,
       [ClientCall.get "a" "ns", ClientCall.delete sampleDC]) :=
  ⟨(deleteDeploymentConfig_spec "a" "ns" notFoundClient).1
      KError.notFound rfl rfl,
   (deleteDeploymentConfig_spec "a" "ns" transportClient).2.1
      (KError.transport "boom") rfl rfl,
   (deleteDeploymentConfig_spec "a" "ns" (okClient sampleDC)).2.2
      sampleDC rfl⟩

/-- C4: when the request carries a non-empty explicit Name, the built
object's name equals that Name verbatim. -/
theorem builtName_explicit (request : DeploymentConfigRequest)
    (h : request.Name ≠ "") :
    (newDeploymentConfig request.Name request.InstanceName
      request.InstanceNamespace request.Component request.Labels
      request.Annotations).objectMeta.name = request.Name := by
  simp [newDeploymentConfig, h]

/-- C4 witness at a request with explicit name "custom". -/
theorem builtName_explicit_witness :
    (newDeploymentConfig "custom" "argocd" "ns" "server" []
      []).objectMeta.name = "custom" :=
  builtName_explicit
    { Name := "custom", InstanceName := "argocd", InstanceNamespace := "ns",
      Component := "server", Labels := [], Annotations := [],
      Mutations := [], Client := { id := 0 } }
    (by decide)

/-- C5: when the request's Name is empty, the built object's name is the
deterministic combination of the instance name and the component. -/
theorem builtName_default (request : DeploymentConfigRequest)
    (h : request.Name = "") :
    (newDeploymentConfig request.Name request.InstanceName
      request.InstanceNamespace request.Component request.Labels
      request.Annotations).objectMeta.name =
      GenerateResourceName request.InstanceName request.Component := by
  simp [newDeploymentConfig, h]

/-- C5 witness: the request with Name "", InstanceName "argocd" and
Component "server" builds an object named by the deterministic combination
of "argocd" and "server". -/
theorem builtName_default_witness :
    (newDeploymentConfig "" "argocd" "ns" "server" [] []).objectMeta.name =
      GenerateResourceName "argocd" "server" :=
  builtName_default
    { Name := "", InstanceName := "argocd", InstanceNamespace := "ns",
      Component := "server", Labels := [], Annotations := [],
      Mutations := [], Client := { id := 0 } }
    rfl

/-- C6: for every request and key, the built object's labels and
annotations are the merge of the fixed defaults with the caller-supplied
map: on a key the caller supplies, the caller's value wins; on every other
key the default binding (if any) is retained.  In particular, merging the
caller label ("tier", "x") over the defaults yields a map containing both
"tier" and the default key "app". -/
theorem builtMaps_merge (request : DeploymentConfigRequest) (k : String) :
    (lookupKV k (newDeploymentConfig request.Name request.InstanceName
        request.InstanceNamespace request.Component request.Labels
        request.Annotations).objectMeta.labels =
      match lookupKV k request.Labels with
      | some v => some v
      | none =>
        lookupKV k (DefaultLabels
          (newDeploymentConfig request.Name request.InstanceName
            request.InstanceNamespace request.Component request.Labels
            request.Annotations).objectMeta.name
          request.InstanceName request.Component)) ∧
    (lookupKV k (newDeploymentConfig request.Name request.InstanceName
        request.InstanceNamespace request.Component request.Labels
        request.Annotations).objectMeta.annotations =
      match lookupKV k request.Annotations with
      | some v => some v
      | none =>
        lookupKV k (DefaultAnnotations request.InstanceName
          request.InstanceNamespace)) ∧
    lookupKV "tier" (newDeploymentConfig "n" "argocd" "ns" "server"
      [("tier", "x")] []).objectMeta.labels = some "x" ∧
    lookupKV "app" (newDeploymentConfig "n" "argocd" "ns" "server"
      [("tier", "x")] []).objectMeta.labels = some "argocd" := by
  refine ⟨?_, ?_, ?_, ?_⟩
  · exact lookupKV_MergeMaps k _ request.Labels
  · exact lookupKV_MergeMaps k _ request.Annotations
  · decide
  · decide

/-- C7: `GetDeploymentConfig` fails with NotFound exactly when the resource
is absent on the cluster, propagates any other client error verbatim, and on
client success returns the fetched object with a nil error. -/
theorem getDeploymentConfig_spec
    (cluster : List ((String × String) × DeploymentConfig))
    (name ns : String) (client : KClient) :
    ((GetDeploymentConfig name ns (clientOfCluster cluster)).1 =
        Except.error KError.notFound ↔
      cluster.lookup (name, ns) = none) ∧
    (∀ e, client.getFn name ns = Except.error e →
      GetDeploymentConfig name ns client =
        (Except.error e, [ClientCall.get name ns])) ∧
    (∀ dc, client.getFn name ns = Except.ok dc →
      GetDeploymentConfig name ns client =
        (Except.ok dc, [ClientCall.get name ns])) := by
  refine ⟨?_, ?_, ?_⟩
  · simp only [GetDeploymentConfig, clientOfCluster]
    cases h : cluster.lookup (name, ns) <;> simp [h]
  · intro e he
    simp [GetDeploymentConfig, he]
  · intro dc hdc
    simp [GetDeploymentConfig, hdc]

/-- C7 witness: NotFound on the empty cluster, a transport error propagated
verbatim, and a successful fetch. -/
theorem getDeploymentConfig_spec_witness :
    ((GetDeploymentConfig "a" "ns" (clientOfCluster [])).1 =
        Except.error KError.notFound ↔
      ([] : List ((String × String) × DeploymentConfig)).lookup
        ("a", "ns") = none) ∧
    GetDeploymentConfig "a" "ns" transportClient =
      (Except.error (KError.transport "boom"), [ClientCall.get "a" "ns"]) ∧
    GetDeploymentConfig "a" "ns" (okClient sampleDC) =
      (Except.ok sampleDC, [ClientCall.get "a" "ns"]) :=
  ⟨(getDeploymentConfig_spec [] "a" "ns" transportClient).1,
   (getDeploymentConfig_spec [] "a" "ns" transportClient).2.1
      (KError.transport "boom") rfl,
   (getDeploymentConfig_spec [] "a" "ns" (okClient sampleDC)).2.2
      sampleDC rfl⟩

/-- C8: `ListDeploymentConfigs` performs a single client List forwarding
the caller's options verbatim, and returns exactly the client's outcome:
the populated list with nil error on success, the client's error on
failure. -/
theorem listDeploymentConfigs_forwards (ns : String) (client : KClient)
    (listOptions : List ListOption) :
    ListDeploymentConfigs ns client listOptions =
      (client.listFn listOptions, [ClientCall.list listOptions]) := rfl

/-- C9: the first argument passed to every mutation callback invoked during
the run performed by `RequestDeploymentConfig` is the absent previous
object: the list of first arguments is exactly `none` repeated once per
callback. -/
theorem requestDeploymentConfig_passes_nil_previous
    (request : DeploymentConfigRequest) :
    (buildRun request).2.2.map Prod.fst =
      List.replicate request.Mutations.length none :=
  runMutations_firsts _ _ _ _

/-- C10: a request with an empty mutation list always succeeds:
`RequestDeploymentConfig` returns the freshly built default object and no
error. -/
theorem requestDeploymentConfig_no_mutations_succeeds
    (request : DeploymentConfigRequest) (h : request.Mutations = []) :
    RequestDeploymentConfig request =
      (newDeploymentConfig request.Name request.InstanceName
        request.InstanceNamespace request.Component request.Labels
        request.Annotations, none) := by
  simp [RequestDeploymentConfig, h]

/-- C10 witness at a concrete request with no mutation callbacks. -/
theorem requestDeploymentConfig_no_mutations_succeeds_witness :
    RequestDeploymentConfig emptyRequest =
      (newDeploymentConfig "n" "argocd" "ns" "server" [] [], none) :=
  requestDeploymentConfig_no_mutations_succeeds emptyRequest rfl
